import Mathlib

/-!
Shallow embedding of the starboard reaction-threshold engine
(`tux/cogs/services/starboard.py`): the qualifying-count computation, the
`get_existing_starboard_message` / `create_or_update_starboard_message`
helpers, and the three raw-reaction event handlers.

Stateful externals (config store, message-link store, channels and their
messages) are modelled as association lists inside a `BotState`; every
Python `await` that can raise is modelled as an operation returning
`Except Unit`, and each `try/except` block of the source appears as an
explicit match on that result.  Handlers return
`Except Unit Unit × BotState`: the `Except` component records whether an
exception escaped the handler, the `BotState` component is the state the
world is left in.
-/

set_option maxRecDepth 8000

namespace StarboardSpec

/-- Per-guild starboard configuration (the `Starboard` row: channel id,
emoji, threshold). -/
structure StarboardConfig where
  starboard_channel_id : Nat
  starboard_emoji : String
  starboard_threshold : Int
  deriving DecidableEq

/-- One reaction roster on a message: the emoji, Discord's reported
`reaction.count`, and the users yielded by `reaction.users()`. -/
structure Reaction where
  emoji : String
  count : Nat
  users : List Nat
  deriving DecidableEq

/-- The parts of the highlight embed the engine builds (description from the
original content, footer `"{count} {emoji}"`). -/
structure Embed where
  description : Option String
  footer : String
  deriving DecidableEq

/-- A Discord message snapshot as fetched from a channel. -/
structure Message where
  id : Nat
  channel_id : Nat
  guild_id : Option Nat
  author_id : Nat
  content : String
  reactions : List Reaction
  embed : Option Embed
  deriving DecidableEq

/-- `payload.member` (only populated on reaction-add events). -/
structure Member where
  id : Nat
  bot : Bool
  deriving DecidableEq

/-- `discord.RawReactionActionEvent` fields the handlers read. -/
structure Payload where
  guild_id : Option Nat
  channel_id : Nat
  message_id : Nat
  emoji : String
  member : Option Member
  message_author_id : Option Nat
  deriving DecidableEq

/-- A channel as returned by `bot.get_channel` / `guild.get_channel`:
either a `discord.TextChannel` (id, guild id) or some other channel type. -/
inductive Channel where
  | text : Nat → Nat → Channel
  | other : Nat → Channel
  deriving DecidableEq

/-- A `StarboardMessage` row of the message-link store (the `expires_at`
timestamp is not modelled; no claim mentions it). -/
structure DBRecord where
  message_id : Nat
  message_content : String
  message_channel_id : Nat
  message_user_id : Nat
  message_guild_id : Nat
  star_count : Int
  starboard_message_id : Nat
  deriving DecidableEq

deriving instance DecidableEq for Except

/-- Association-list lookup (first binding wins, as a keyed store). -/
def lookupA {α β : Type} [DecidableEq α] : List (α × β) → α → Option β
  | [], _ => none
  | kv :: rest, k => if kv.1 = k then some kv.2 else lookupA rest k

/-- Association-list write: replace the binding in place, else append. -/
def setA {α β : Type} [DecidableEq α] : List (α × β) → α → β → List (α × β)
  | [], k, v => [(k, v)]
  | kv :: rest, k, v => if kv.1 = k then (k, v) :: rest else kv :: setA rest k v

/-- Association-list delete. -/
def delA {α β : Type} [DecidableEq α] : List (α × β) → α → List (α × β)
  | [], _ => []
  | kv :: rest, k => if kv.1 = k then delA rest k else kv :: delA rest k

/-- The world state an event handler runs against: the config store, the
message-link store, the channel map, the messages present in each channel
(absent message = fetch raises), the id the next sent message receives, and
a flag making the link-store read raise (to model a store failure). -/
structure BotState where
  configs : List (Nat × StarboardConfig)
  links : List ((Nat × Nat) × DBRecord)
  channels : List (Nat × Channel)
  chanMessages : List ((Nat × Nat) × Message)
  nextId : Nat
  linkReadFails : Bool
  deriving DecidableEq

def lookupConfig (s : BotState) (g : Nat) : Option StarboardConfig :=
  lookupA s.configs g

def lookupLink (s : BotState) (mid g : Nat) : Option DBRecord :=
  lookupA s.links (mid, g)

def lookupChannel (s : BotState) (cid : Nat) : Option Channel :=
  lookupA s.channels cid

def lookupMsg (s : BotState) (cid mid : Nat) : Option Message :=
  lookupA s.chanMessages (cid, mid)

/-- `channel.fetch_message(mid)`: raises when the message is not present. -/
def fetchMessage (s : BotState) (cid mid : Nat) : Except Unit Message :=
  match lookupMsg s cid mid with
  | some m => Except.ok m
  | none => Except.error ()

/-- `starboard_message_controller.get_starboard_message_by_id`: a database
read that raises when the store is failing. -/
def getLinkDB (s : BotState) (mid g : Nat) : Except Unit (Option DBRecord) :=
  if s.linkReadFails then Except.error () else Except.ok (lookupLink s mid g)

/-- `channel.send(embed=...)`: the new message gets the fresh id `nextId`. -/
def sendMessage (s : BotState) (cid : Nat) (e : Embed) : Message × BotState :=
  let m : Message :=
    { id := s.nextId, channel_id := cid, guild_id := none, author_id := 0,
      content := "", reactions := [], embed := some e }
  (m, { s with chanMessages := setA s.chanMessages (cid, s.nextId) m,
               nextId := s.nextId + 1 })

/-- `message.edit(embed=...)`: raises NotFound when the message is gone. -/
def editMessageE (s : BotState) (cid mid : Nat) (e : Embed) :
    Except Unit BotState :=
  match lookupMsg s cid mid with
  | some m =>
      let m2 := { m with embed := some e }
      Except.ok { s with chanMessages := setA s.chanMessages (cid, mid) m2 }
  | none => Except.error ()

/-- `message.delete()`: raises NotFound when the message is gone. -/
def deleteMessageE (s : BotState) (cid mid : Nat) : Except Unit BotState :=
  match lookupMsg s cid mid with
  | some _ =>
      Except.ok { s with chanMessages := delA s.chanMessages (cid, mid) }
  | none => Except.error ()

/-- `starboard_message_controller.create_or_update_starboard_message`:
overwrite the link row keyed by (original message id, guild id). -/
def putLink (s : BotState) (row : DBRecord) : BotState :=
  { s with links := setA s.links (row.message_id, row.message_guild_id) row }

/-- The qualifying-count computation of both reaction handlers
(lines 275-281 / 309-315): `discord.utils.get(message.reactions, emoji=e)`,
start from `reaction.count`, then decrement once per roster user whose id
equals `payload.message_author_id`. -/
def reactionCountAdjusted (reactions : List Reaction) (author : Option Nat)
    (emoji : String) : Int :=
  match reactions.find? (fun r => r.emoji == emoji) with
  | none => 0
  | some r =>
      (r.count : Int) -
        ((r.users.filter (fun u => decide (some u = author))).length : Int)

/-- `Starboard.get_existing_starboard_message` (lines 160-193): assert the
original message has a guild, then inside `try` read the link row and fetch
the referenced highlight message; any exception in the `try` is caught and
`None` returned. -/
def get_existing_starboard_message (s : BotState) (sbChannelId : Nat)
    (original : Message) : Except Unit (Option Message) :=
  match original.guild_id with
  | none => Except.error ()
  | some g =>
    let body : Except Unit (Option Message) :=
      match getLinkDB s original.id g with
      | Except.error e => Except.error e
      | Except.ok none => Except.ok none
      | Except.ok (some link) =>
          match fetchMessage s sbChannelId link.starboard_message_id with
          | Except.error e => Except.error e
          | Except.ok m => Except.ok (some m)
    match body with
    | Except.error _ => Except.ok none
    | Except.ok v => Except.ok v

/-- The highlight embed (lines 223-236): description from the original
content when non-empty, footer `"{reaction_count} {emoji}"`. -/
def buildEmbed (original : Message) (reaction_count : Int) (emoji : String) :
    Embed :=
  { description := if original.content = "" then none else some original.content,
    footer := toString reaction_count ++ " " ++ emoji }

/-- The link row written at the end of the upsert (lines 245-254). -/
def mkLinkRecord (original : Message) (g : Nat) (reaction_count : Int)
    (sbMessageId : Nat) : DBRecord :=
  { message_id := original.id, message_content := original.content,
    message_channel_id := original.channel_id,
    message_user_id := original.author_id, message_guild_id := g,
    star_count := reaction_count, starboard_message_id := sbMessageId }

/-- `Starboard.create_or_update_starboard_message` (lines 195-257): guard on
the original's guild, then inside `try`: load config (no-op when absent),
build the embed, look up the existing highlight message; edit it when found,
else send a new one; finally overwrite the link row.  Everything in `try`
is caught by the final `except`, so the call never raises. -/
def create_or_update_starboard_message (s : BotState) (sbChannelId : Nat)
    (original : Message) (reaction_count : Int) :
    Except Unit Unit × BotState :=
  match original.guild_id with
  | none => (Except.ok (), s)
  | some g =>
    match lookupConfig s g with
    | none => (Except.ok (), s)
    | some sb =>
      let embed := buildEmbed original reaction_count sb.starboard_emoji
      match get_existing_starboard_message s sbChannelId original with
      | Except.error _ => (Except.ok (), s)
      | Except.ok (some sm) =>
          match editMessageE s sbChannelId sm.id embed with
          | Except.error _ => (Except.ok (), s)
          | Except.ok s1 =>
              (Except.ok (),
               putLink s1 (mkLinkRecord original g reaction_count sm.id))
      | Except.ok none =>
          let ms := sendMessage s sbChannelId embed
          (Except.ok (),
           putLink ms.2 (mkLinkRecord original g reaction_count ms.1.id))

/-- `starboard_on_reaction_add` (lines 259-291): guild/member/bot guard,
config + emoji guard, `assert isinstance(channel, TextChannel)` OUTSIDE the
`try` (a non-text channel raises out of the handler), then inside `try`:
fetch the message, compute the qualifying count, and when it reaches the
threshold call the upsert on the (text) starboard channel. -/
def starboard_on_reaction_add (s : BotState) (p : Payload) :
    Except Unit Unit × BotState :=
  match p.guild_id with
  | none => (Except.ok (), s)
  | some g =>
    match p.member with
    | none => (Except.ok (), s)
    | some mem =>
      if mem.bot then (Except.ok (), s)
      else
        match lookupConfig s g with
        | none => (Except.ok (), s)
        | some sb =>
          if p.emoji ≠ sb.starboard_emoji then (Except.ok (), s)
          else
            match lookupChannel s p.channel_id with
            | some (Channel.text _ _) =>
                match fetchMessage s p.channel_id p.message_id with
                | Except.error _ => (Except.ok (), s)
                | Except.ok message =>
                    let rc := reactionCountAdjusted message.reactions
                        p.message_author_id sb.starboard_emoji
                    if rc ≥ sb.starboard_threshold then
                      match lookupChannel s sb.starboard_channel_id with
                      | some (Channel.text sbcid _) =>
                          create_or_update_starboard_message s sbcid message rc
                      | _ => (Except.ok (), s)
                    else (Except.ok (), s)
            | _ => (Except.error (), s)

/-- `starboard_on_reaction_remove` (lines 293-329): like the add handler but
with NO member/bot guard; inside `try`, after computing the qualifying count
and resolving the starboard channel, a count below the threshold deletes the
existing highlight message (when one resolves), otherwise the upsert runs. -/
def starboard_on_reaction_remove (s : BotState) (p : Payload) :
    Except Unit Unit × BotState :=
  match p.guild_id with
  | none => (Except.ok (), s)
  | some g =>
    match lookupConfig s g with
    | none => (Except.ok (), s)
    | some sb =>
      if p.emoji ≠ sb.starboard_emoji then (Except.ok (), s)
      else
        match lookupChannel s p.channel_id with
        | some (Channel.text _ _) =>
            match fetchMessage s p.channel_id p.message_id with
            | Except.error _ => (Except.ok (), s)
            | Except.ok message =>
                let rc := reactionCountAdjusted message.reactions
                    p.message_author_id sb.starboard_emoji
                match lookupChannel s sb.starboard_channel_id with
                | some (Channel.text sbcid _) =>
                    if rc < sb.starboard_threshold then
                      match get_existing_starboard_message s sbcid message with
                      | Except.ok (some sm) =>
                          match deleteMessageE s sbcid sm.id with
                          | Except.ok s1 => (Except.ok (), s1)
                          | Except.error _ => (Except.ok (), s)
                      | _ => (Except.ok (), s)
                    else create_or_update_starboard_message s sbcid message rc
                | _ => (Except.ok (), s)
        | _ => (Except.error (), s)

/-- `starboard_on_reaction_clear` (lines 331-358): guild guard, then a `try`
that CONTAINS the channel assertion (so a non-text channel is caught), the
message fetch, the config guard, the starboard-channel guard, and the
unconditional link lookup; a found highlight message is deleted.  No
qualifying count is computed on this path. -/
def starboard_on_reaction_clear (s : BotState) (p : Payload) :
    Except Unit Unit × BotState :=
  match p.guild_id with
  | none => (Except.ok (), s)
  | some g =>
    match lookupChannel s p.channel_id with
    | some (Channel.text _ _) =>
        match fetchMessage s p.channel_id p.message_id with
        | Except.error _ => (Except.ok (), s)
        | Except.ok message =>
            match lookupConfig s g with
            | none => (Except.ok (), s)
            | some sb =>
                match lookupChannel s sb.starboard_channel_id with
                | some (Channel.text sbcid _) =>
                    match get_existing_starboard_message s sbcid message with
                    | Except.ok (some sm) =>
                        match deleteMessageE s sbcid sm.id with
                        | Except.ok s1 => (Except.ok (), s1)
                        | Except.error _ => (Except.ok (), s)
                    | _ => (Except.ok (), s)
                | _ => (Except.ok (), s)
    | _ => (Except.ok (), s)

/-! ### Association-list lemmas -/

theorem lookupA_setA_self {α β : Type} [DecidableEq α] (l : List (α × β))
    (k : α) (v : β) : lookupA (setA l k v) k = some v := by
  induction l with
  | nil => simp [setA, lookupA]
  | cons kv rest ih =>
    by_cases h : kv.1 = k
    · simp [setA, h, lookupA]
    · simp [setA, h, lookupA, ih]

theorem lookupA_setA_ne {α β : Type} [DecidableEq α] (l : List (α × β))
    {k k' : α} (v : β) (h : k' ≠ k) :
    lookupA (setA l k v) k' = lookupA l k' := by
  induction l with
  | nil => simp [setA, lookupA, Ne.symm h]
  | cons kv rest ih =>
    by_cases hk : kv.1 = k
    · subst hk
      simp [setA, lookupA, Ne.symm h]
    · by_cases hk' : kv.1 = k'
      · simp [setA, hk, lookupA, hk', h]
      · simp [setA, hk, lookupA, hk', ih]

theorem lookupA_delA_self {α β : Type} [DecidableEq α] (l : List (α × β))
    (k : α) : lookupA (delA l k) k = none := by
  induction l with
  | nil => simp [delA, lookupA]
  | cons kv rest ih =>
    by_cases h : kv.1 = k
    · simp [delA, h, ih]
    · simp [delA, h, lookupA, ih]

theorem lookupA_delA_ne {α β : Type} [DecidableEq α] (l : List (α × β))
    {k k' : α} (h : k' ≠ k) :
    lookupA (delA l k) k' = lookupA l k' := by
  induction l with
  | nil => simp [delA]
  | cons kv rest ih =>
    by_cases hk : kv.1 = k
    · subst hk
      simp [delA, lookupA, Ne.symm h, ih]
    · by_cases hk' : kv.1 = k'
      · simp [delA, hk, lookupA, hk', h]
      · simp [delA, hk, lookupA, hk', ih]

/-! ### Counting lemmas for the qualifying count (C1) -/

theorem filter_len_nodup {l : List Nat} {a : Nat} (p : Nat → Bool)
    (hp : ∀ u, p u = true ↔ u = a) (h : l.Nodup) :
    (l.filter p).length = if a ∈ l then 1 else 0 := by
  induction l with
  | nil => simp
  | cons b t ih =>
    rw [List.nodup_cons] at h
    by_cases hba : b = a
    · subst hba
      have ht : t.filter p = [] := by
        refine List.filter_eq_nil_iff.mpr ?_
        intro u hu hpu
        exact h.1 (((hp u).mp hpu) ▸ hu)
      simp [List.filter_cons, (hp b).mpr rfl, ht]
    · have hpb : p b = false := by
        cases hpb : p b with
        | false => rfl
        | true => exact absurd ((hp b).mp hpb) hba
      have hab : ¬a = b := fun e => hba e.symm
      simp [List.filter_cons, hpb, ih h.2, List.mem_cons, hab]

/-! ### Characterizations of `get_existing_starboard_message` -/

theorem get_existing_of_db_fail (s : BotState) (sbc : Nat) (msg : Message)
    (g : Nat) (hg : msg.guild_id = some g) (hdb : s.linkReadFails = true) :
    get_existing_starboard_message s sbc msg = Except.ok none := by
  simp only [get_existing_starboard_message, hg, getLinkDB, hdb, if_true]

theorem get_existing_of_no_link (s : BotState) (sbc : Nat) (msg : Message)
    (g : Nat) (hg : msg.guild_id = some g) (hdb : s.linkReadFails = false)
    (hlink : lookupLink s msg.id g = none) :
    get_existing_starboard_message s sbc msg = Except.ok none := by
  simp only [get_existing_starboard_message, hg, getLinkDB, hdb, hlink,
    Bool.false_eq_true, if_false]

theorem get_existing_of_stale_link (s : BotState) (sbc : Nat) (msg : Message)
    (g : Nat) (link : DBRecord)
    (hg : msg.guild_id = some g) (hdb : s.linkReadFails = false)
    (hlink : lookupLink s msg.id g = some link)
    (hgone : lookupMsg s sbc link.starboard_message_id = none) :
    get_existing_starboard_message s sbc msg = Except.ok none := by
  simp only [get_existing_starboard_message, hg, getLinkDB, hdb, hlink,
    fetchMessage, hgone, Bool.false_eq_true, if_false]

theorem get_existing_of_live_link (s : BotState) (sbc : Nat) (msg : Message)
    (g : Nat) (link : DBRecord) (hm : Message)
    (hg : msg.guild_id = some g) (hdb : s.linkReadFails = false)
    (hlink : lookupLink s msg.id g = some link)
    (hlive : lookupMsg s sbc link.starboard_message_id = some hm) :
    get_existing_starboard_message s sbc msg = Except.ok (some hm) := by
  simp only [get_existing_starboard_message, hg, getLinkDB, hdb, hlink,
    fetchMessage, hlive, Bool.false_eq_true, if_false]

/-! ### Characterizations of the upsert -/

/-- When no live highlight message resolves, the upsert sends a fresh
message (id `s.nextId`) and overwrites the link row with that id. -/
theorem upsert_of_none (s : BotState) (sbc : Nat) (msg : Message) (rc : Int)
    (g : Nat) (sb : StarboardConfig)
    (hg : msg.guild_id = some g)
    (hcfg : lookupConfig s g = some sb)
    (hex : get_existing_starboard_message s sbc msg = Except.ok none) :
    create_or_update_starboard_message s sbc msg rc =
      (Except.ok (),
       putLink (sendMessage s sbc (buildEmbed msg rc sb.starboard_emoji)).2
         (mkLinkRecord msg g rc s.nextId)) := by
  simp only [create_or_update_starboard_message, hg, hcfg, hex, sendMessage]

/-- The state after editing the embed of message `mid` of channel `sbc`. -/
def editedState (s : BotState) (sbc mid : Nat) (m0 : Message) (e : Embed) :
    BotState :=
  let m2 := { m0 with embed := some e }
  { s with chanMessages := setA s.chanMessages (sbc, mid) m2 }

/-- When a live highlight message resolves, the upsert edits it in place
(same id, new embed) and overwrites the link row with its id. -/
theorem upsert_of_live (s : BotState) (sbc : Nat) (msg : Message) (rc : Int)
    (g : Nat) (sb : StarboardConfig) (sm m0 : Message)
    (hg : msg.guild_id = some g)
    (hcfg : lookupConfig s g = some sb)
    (hex : get_existing_starboard_message s sbc msg = Except.ok (some sm))
    (hlive : lookupMsg s sbc sm.id = some m0) :
    create_or_update_starboard_message s sbc msg rc =
      (Except.ok (),
       putLink
         (editedState s sbc sm.id m0 (buildEmbed msg rc sb.starboard_emoji))
         (mkLinkRecord msg g rc sm.id)) := by
  simp only [create_or_update_starboard_message, hg, hcfg, hex, editMessageE,
    hlive, editedState]

/-- C1: on both the add and the remove path, the qualifying count computed
before the threshold comparison equals the number of distinct users on the
trigger emoji's roster, minus 1 exactly when the message author is among
those reactors, and is never negative; when no roster matches the trigger
emoji it is 0.  (Hypotheses: Discord's `reaction.count` equals the roster
size and rosters list distinct users.) -/
theorem C1_qualifying_count (reactions : List Reaction) (emoji : String)
    (a : Nat)
    (hc : ∀ r ∈ reactions, r.count = r.users.length)
    (hnd : ∀ r ∈ reactions, r.users.Nodup) :
    0 ≤ reactionCountAdjusted reactions (some a) emoji ∧
    (∀ r, reactions.find? (fun x => x.emoji == emoji) = some r →
        reactionCountAdjusted reactions (some a) emoji =
          (r.users.length : Int) - (if a ∈ r.users then 1 else 0)) ∧
    (reactions.find? (fun x => x.emoji == emoji) = none →
        reactionCountAdjusted reactions (some a) emoji = 0) := by
  unfold reactionCountAdjusted
  cases hf : reactions.find? (fun x => x.emoji == emoji) with
  | none => simp
  | some r =>
    have hr := List.mem_of_find?_eq_some hf
    have h1 := hc r hr
    have h2 := hnd r hr
    have hfl : (r.users.filter (fun u => decide (some u = some a))).length
        = if a ∈ r.users then 1 else 0 := by
      refine filter_len_nodup _ (fun u => ?_) h2
      simp
    refine ⟨?_, ?_, ?_⟩
    · by_cases hm : a ∈ r.users
      · have hpos : 0 < r.users.length := List.length_pos.mpr
          (List.ne_nil_of_mem hm)
        simp only [hfl, hm, if_true, h1]
        omega
      · simp only [hfl, hm, if_false, h1]
        omega
    · intro r' hr'
      cases hr'
      simp only [h1, hfl]
      by_cases hm : a ∈ r.users <;> simp [hm]
    · intro hnone
      simp at hnone

/-- Witness for C1 at a concrete roster: two distinct reactors, one of whom
is the author. -/
theorem C1_qualifying_count_witness :
    0 ≤ reactionCountAdjusted [⟨"s", 2, [5, 7]⟩] (some 5) "s" ∧
    (∀ r, [(⟨"s", 2, [5, 7]⟩ : Reaction)].find? (fun x => x.emoji == "s")
          = some r →
        reactionCountAdjusted [⟨"s", 2, [5, 7]⟩] (some 5) "s" =
          (r.users.length : Int) - (if 5 ∈ r.users then 1 else 0)) ∧
    ([(⟨"s", 2, [5, 7]⟩ : Reaction)].find? (fun x => x.emoji == "s") = none →
        reactionCountAdjusted [⟨"s", 2, [5, 7]⟩] (some 5) "s" = 0) :=
  C1_qualifying_count [⟨"s", 2, [5, 7]⟩] "s" 5 (by decide) (by decide)

/-! ### Concrete scenario data for witnesses and counterexamples -/

/-- An original message with two non-author reactors on the trigger emoji. -/
def msgHot : Message :=
  { id := 100, channel_id := 5, guild_id := some 1, author_id := 7,
    content := "hi", reactions := [⟨"s", 2, [8, 9]⟩], embed := none }

/-- A highlight message sitting in the starboard channel under id 200. -/
def hlEx : Message :=
  { id := 200, channel_id := 10, guild_id := none, author_id := 0,
    content := "", reactions := [], embed := none }

/-- A link row mapping original message 100 (guild 1) to highlight 200. -/
def rowEx : DBRecord :=
  { message_id := 100, message_content := "hi", message_channel_id := 5,
    message_user_id := 7, message_guild_id := 1, star_count := 2,
    starboard_message_id := 200 }

/-- A reaction event on message 100 from non-author user 8. -/
def pEx : Payload :=
  { guild_id := some 1, channel_id := 5, message_id := 100, emoji := "s",
    member := some ⟨8, false⟩, message_author_id := some 7 }

/-- Configured guild 1 (threshold 2), no link yet, original message present. -/
def sAdd : BotState :=
  { configs := [(1, ⟨10, "s", 2⟩)], links := [],
    channels := [(5, Channel.text 5 1), (10, Channel.text 10 1)],
    chanMessages := [((5, 100), msgHot)], nextId := 300,
    linkReadFails := false }

/-- Configured guild 1 (threshold 3, so `msgHot` is below threshold), link
row present and its highlight message live. -/
def sDemote : BotState :=
  { configs := [(1, ⟨10, "s", 3⟩)], links := [((100, 1), rowEx)],
    channels := [(5, Channel.text 5 1), (10, Channel.text 10 1)],
    chanMessages := [((5, 100), msgHot), ((10, 200), hlEx)], nextId := 300,
    linkReadFails := false }

/-- C2: on a configured server with matching emoji (guards passing and the
message fetch succeeding), a qualifying count at or above the threshold
makes both the add and the remove handler run exactly the upsert on the
resolved starboard channel, and an add event below the threshold leaves the
state (and the exception status) completely unchanged. -/
theorem C2_threshold_dispatch (s : BotState) (p : Payload) (g : Nat)
    (mem : Member) (sb : StarboardConfig) (cid cg sbcid sbg : Nat)
    (msg : Message)
    (hg : p.guild_id = some g)
    (hmem : p.member = some mem)
    (hbot : mem.bot = false)
    (hcfg : lookupConfig s g = some sb)
    (he : p.emoji = sb.starboard_emoji)
    (hch : lookupChannel s p.channel_id = some (Channel.text cid cg))
    (hfetch : lookupMsg s p.channel_id p.message_id = some msg)
    (hsbch : lookupChannel s sb.starboard_channel_id =
        some (Channel.text sbcid sbg)) :
    (sb.starboard_threshold ≤ reactionCountAdjusted msg.reactions
        p.message_author_id sb.starboard_emoji →
      starboard_on_reaction_add s p =
        create_or_update_starboard_message s sbcid msg
          (reactionCountAdjusted msg.reactions p.message_author_id
            sb.starboard_emoji) ∧
      starboard_on_reaction_remove s p =
        create_or_update_starboard_message s sbcid msg
          (reactionCountAdjusted msg.reactions p.message_author_id
            sb.starboard_emoji)) ∧
    (reactionCountAdjusted msg.reactions p.message_author_id
        sb.starboard_emoji < sb.starboard_threshold →
      starboard_on_reaction_add s p = (Except.ok (), s)) := by
  constructor
  · intro hge
    constructor
    · simp only [starboard_on_reaction_add, hg, hmem, hbot, hcfg, he, hch,
        fetchMessage, hfetch, hsbch, ge_iff_le, hge, ne_eq,
        not_true_eq_false, if_false, if_true, Bool.false_eq_true]
    · simp only [starboard_on_reaction_remove, hg, hcfg, he, hch,
        fetchMessage, hfetch, hsbch, not_lt.mpr hge, ne_eq,
        not_true_eq_false, if_false]
  · intro hlt
    simp only [starboard_on_reaction_add, hg, hmem, hbot, hcfg, he, hch,
      fetchMessage, hfetch, ge_iff_le, not_le.mpr hlt, ne_eq,
      not_true_eq_false, if_false, Bool.false_eq_true]

/-- Witness for C2: in `sAdd` the qualifying count is 2 against threshold 2,
so both handlers dispatch to the upsert. -/
theorem C2_threshold_dispatch_witness :
    starboard_on_reaction_add sAdd pEx =
      create_or_update_starboard_message sAdd 10 msgHot
        (reactionCountAdjusted msgHot.reactions (some 7) "s") ∧
    starboard_on_reaction_remove sAdd pEx =
      create_or_update_starboard_message sAdd 10 msgHot
        (reactionCountAdjusted msgHot.reactions (some 7) "s") :=
  (C2_threshold_dispatch sAdd pEx 1 ⟨8, false⟩ ⟨10, "s", 2⟩ 5 1 10 1 msgHot
    (by decide) (by decide) (by decide) (by decide) (by decide) (by decide)
    (by decide) (by decide)).1 (by decide)

/-- C3: a remove event whose qualifying count lands below the threshold,
with a link row present and its highlight message live, deletes the
highlight message; afterwards `get_existing_starboard_message` no longer
resolves the link (the row has become stale). -/
theorem C3_demote_below_threshold (s : BotState) (p : Payload) (g : Nat)
    (sb : StarboardConfig) (cid cg sbcid sbg : Nat) (msg : Message)
    (link : DBRecord) (hm : Message)
    (hg : p.guild_id = some g)
    (hcfg : lookupConfig s g = some sb)
    (he : p.emoji = sb.starboard_emoji)
    (hch : lookupChannel s p.channel_id = some (Channel.text cid cg))
    (hfetch : lookupMsg s p.channel_id p.message_id = some msg)
    (hsbch : lookupChannel s sb.starboard_channel_id =
        some (Channel.text sbcid sbg))
    (hmg : msg.guild_id = some g)
    (hdb : s.linkReadFails = false)
    (hlink : lookupLink s msg.id g = some link)
    (hlive : lookupMsg s sbcid link.starboard_message_id = some hm)
    (hid : hm.id = link.starboard_message_id)
    (hlt : reactionCountAdjusted msg.reactions p.message_author_id
        sb.starboard_emoji < sb.starboard_threshold) :
    (starboard_on_reaction_remove s p).1 = Except.ok () ∧
    lookupMsg (starboard_on_reaction_remove s p).2 sbcid
      link.starboard_message_id = none ∧
    get_existing_starboard_message (starboard_on_reaction_remove s p).2
      sbcid msg = Except.ok none := by
  have hex : get_existing_starboard_message s sbcid msg =
      Except.ok (some hm) :=
    get_existing_of_live_link s sbcid msg g link hm hmg hdb hlink hlive
  have hlive2 : lookupMsg s sbcid hm.id = some hm := by rw [hid]; exact hlive
  have hrun : starboard_on_reaction_remove s p =
      (Except.ok (),
       { s with chanMessages := delA s.chanMessages (sbcid, hm.id) }) := by
    simp only [starboard_on_reaction_remove, hg, hcfg, he, hch, fetchMessage,
      hfetch, hsbch, hlt, hex, deleteMessageE, hlive2, ne_eq,
      not_true_eq_false, if_false, if_true]
  rw [hrun]
  refine ⟨rfl, ?_, ?_⟩
  · show lookupA (delA s.chanMessages (sbcid, hm.id))
      (sbcid, link.starboard_message_id) = none
    rw [← hid]
    exact lookupA_delA_self s.chanMessages (sbcid, hm.id)
  · refine get_existing_of_stale_link _ sbcid msg g link hmg hdb hlink ?_
    show lookupA (delA s.chanMessages (sbcid, hm.id))
      (sbcid, link.starboard_message_id) = none
    rw [← hid]
    exact lookupA_delA_self s.chanMessages (sbcid, hm.id)

/-- Witness for C3: in `sDemote` the qualifying count 2 is below threshold
3 and link row `rowEx` points at the live highlight 200. -/
theorem C3_demote_below_threshold_witness :
    (starboard_on_reaction_remove sDemote pEx).1 = Except.ok () ∧
    lookupMsg (starboard_on_reaction_remove sDemote pEx).2 10 200 = none ∧
    get_existing_starboard_message (starboard_on_reaction_remove sDemote pEx).2
      10 msgHot = Except.ok none :=
  C3_demote_below_threshold sDemote pEx 1 ⟨10, "s", 3⟩ 5 1 10 1 msgHot rowEx
    hlEx (by decide) (by decide) (by decide) (by decide) (by decide)
    (by decide) (by decide) (by decide) (by decide) (by decide) (by decide)
    (by decide)

/-- C4: a reactions-cleared event (guards passing, message fetched) with a
link row whose highlight message is live deletes that highlight message and
leaves the link unresolvable — no reaction roster is consulted and no
threshold comparison occurs (the roster contents and the configured
threshold are arbitrary here). -/
theorem C4_clear_demotes (s : BotState) (p : Payload) (g : Nat)
    (sb : StarboardConfig) (cid cg sbcid sbg : Nat) (msg : Message)
    (link : DBRecord) (hm : Message)
    (hg : p.guild_id = some g)
    (hch : lookupChannel s p.channel_id = some (Channel.text cid cg))
    (hfetch : lookupMsg s p.channel_id p.message_id = some msg)
    (hcfg : lookupConfig s g = some sb)
    (hsbch : lookupChannel s sb.starboard_channel_id =
        some (Channel.text sbcid sbg))
    (hmg : msg.guild_id = some g)
    (hdb : s.linkReadFails = false)
    (hlink : lookupLink s msg.id g = some link)
    (hlive : lookupMsg s sbcid link.starboard_message_id = some hm)
    (hid : hm.id = link.starboard_message_id) :
    (starboard_on_reaction_clear s p).1 = Except.ok () ∧
    lookupMsg (starboard_on_reaction_clear s p).2 sbcid
      link.starboard_message_id = none ∧
    get_existing_starboard_message (starboard_on_reaction_clear s p).2
      sbcid msg = Except.ok none := by
  have hex : get_existing_starboard_message s sbcid msg =
      Except.ok (some hm) :=
    get_existing_of_live_link s sbcid msg g link hm hmg hdb hlink hlive
  have hlive2 : lookupMsg s sbcid hm.id = some hm := by rw [hid]; exact hlive
  have hrun : starboard_on_reaction_clear s p =
      (Except.ok (),
       { s with chanMessages := delA s.chanMessages (sbcid, hm.id) }) := by
    simp only [starboard_on_reaction_clear, hg, hch, fetchMessage, hfetch,
      hcfg, hsbch, hex, deleteMessageE, hlive2]
  rw [hrun]
  refine ⟨rfl, ?_, ?_⟩
  · show lookupA (delA s.chanMessages (sbcid, hm.id))
      (sbcid, link.starboard_message_id) = none
    rw [← hid]
    exact lookupA_delA_self s.chanMessages (sbcid, hm.id)
  · refine get_existing_of_stale_link _ sbcid msg g link hmg hdb hlink ?_
    show lookupA (delA s.chanMessages (sbcid, hm.id))
      (sbcid, link.starboard_message_id) = none
    rw [← hid]
    exact lookupA_delA_self s.chanMessages (sbcid, hm.id)

/-- Witness for C4: clearing reactions in `sDemote` deletes highlight 200. -/
theorem C4_clear_demotes_witness :
    (starboard_on_reaction_clear sDemote pEx).1 = Except.ok () ∧
    lookupMsg (starboard_on_reaction_clear sDemote pEx).2 10 200 = none ∧
    get_existing_starboard_message (starboard_on_reaction_clear sDemote pEx).2
      10 msgHot = Except.ok none :=
  C4_clear_demotes sDemote pEx 1 ⟨10, "s", 3⟩ 5 1 10 1 msgHot rowEx hlEx
    (by decide) (by decide) (by decide) (by decide) (by decide) (by decide)
    (by decide) (by decide) (by decide) (by decide)

/-! ### Message-count lemmas (for the idempotence claim) -/

/-- Number of messages currently in channel `cid`. -/
def channelMessageCount (s : BotState) (cid : Nat) : Nat :=
  List.countP (fun kv => decide (kv.1.1 = cid)) s.chanMessages

theorem countP_setA_present {β : Type} (l : List ((Nat × Nat) × β))
    (k : Nat × Nat) (v : β) (cid : Nat) (h : lookupA l k ≠ none) :
    List.countP (fun kv => decide (kv.1.1 = cid)) (setA l k v) =
      List.countP (fun kv => decide (kv.1.1 = cid)) l := by
  induction l with
  | nil => simp [lookupA] at h
  | cons kv rest ih =>
    by_cases hk : kv.1 = k
    · simp [setA, hk, List.countP_cons]
    · have h2 : lookupA rest k ≠ none := by
        simpa [lookupA, hk] using h
      simp [setA, hk, List.countP_cons, ih h2]

theorem countP_setA_absent {β : Type} (l : List ((Nat × Nat) × β))
    (k : Nat × Nat) (v : β) (cid : Nat) (h : lookupA l k = none) :
    List.countP (fun kv => decide (kv.1.1 = cid)) (setA l k v) =
      List.countP (fun kv => decide (kv.1.1 = cid)) l +
        (if k.1 = cid then 1 else 0) := by
  induction l with
  | nil => simp [setA, List.countP_cons]
  | cons kv rest ih =>
    by_cases hk : kv.1 = k
    · rw [lookupA, if_pos hk] at h
      cases h
    · have h2 : lookupA rest k = none := by
        rw [lookupA, if_neg hk] at h
        exact h
      simp only [setA, hk, if_false, List.countP_cons, ih h2]
      omega

/-- A message with its embed replaced (the result of an edit). -/
def withEmbed (m : Message) (e : Embed) : Message :=
  { m with embed := some e }

/-- C5: with the link row pointing at a live highlight message, the upsert
edits that message in place rather than sending a new one (`nextId` and the
starboard channel's message count are unchanged), and an immediate second
upsert does the same — so two consecutive upserts leave exactly the one
existing highlight message. -/
theorem C5_upsert_idempotent (s : BotState) (sbc : Nat) (msg : Message)
    (rc : Int) (g : Nat) (sb : StarboardConfig) (link : DBRecord)
    (hm : Message)
    (hg : msg.guild_id = some g)
    (hcfg : lookupConfig s g = some sb)
    (hdb : s.linkReadFails = false)
    (hlink : lookupLink s msg.id g = some link)
    (hlive : lookupMsg s sbc link.starboard_message_id = some hm)
    (hid : hm.id = link.starboard_message_id) :
    (create_or_update_starboard_message s sbc msg rc).2.nextId = s.nextId ∧
    channelMessageCount
        (create_or_update_starboard_message s sbc msg rc).2 sbc =
      channelMessageCount s sbc ∧
    (create_or_update_starboard_message
        (create_or_update_starboard_message s sbc msg rc).2
        sbc msg rc).2.nextId = s.nextId ∧
    channelMessageCount
        (create_or_update_starboard_message
          (create_or_update_starboard_message s sbc msg rc).2
          sbc msg rc).2 sbc =
      channelMessageCount s sbc := by
  have hlive2 : lookupMsg s sbc hm.id = some hm := by rw [hid]; exact hlive
  have hex : get_existing_starboard_message s sbc msg =
      Except.ok (some hm) :=
    get_existing_of_live_link s sbc msg g link hm hg hdb hlink hlive
  have hrun1 := upsert_of_live s sbc msg rc g sb hm hm hg hcfg hex hlive2
  have hpresent : lookupA s.chanMessages (sbc, hm.id) ≠ none := by
    rw [show lookupA s.chanMessages (sbc, hm.id) =
      lookupMsg s sbc hm.id from rfl, hlive2]
    exact Option.some_ne_none hm
  have hcount1 :
      channelMessageCount
          (create_or_update_starboard_message s sbc msg rc).2 sbc =
        channelMessageCount s sbc := by
    rw [hrun1]
    show List.countP _ (setA s.chanMessages (sbc, hm.id) _) = _
    exact countP_setA_present s.chanMessages (sbc, hm.id) _ sbc hpresent
  have hnext1 :
      (create_or_update_starboard_message s sbc msg rc).2.nextId =
        s.nextId := by
    rw [hrun1]
    rfl
  -- hypotheses about the state after the first call
  have hcfg2 : lookupConfig
      (create_or_update_starboard_message s sbc msg rc).2 g = some sb := by
    rw [hrun1]
    exact hcfg
  have hdb2 :
      (create_or_update_starboard_message s sbc msg rc).2.linkReadFails =
        false := by
    rw [hrun1]
    exact hdb
  have hlink2 : lookupLink
      (create_or_update_starboard_message s sbc msg rc).2 msg.id g =
      some (mkLinkRecord msg g rc hm.id) := by
    rw [hrun1]
    exact lookupA_setA_self _ (msg.id, g) _
  have hlive3 : lookupMsg
      (create_or_update_starboard_message s sbc msg rc).2 sbc hm.id =
      some (withEmbed hm (buildEmbed msg rc sb.starboard_emoji)) := by
    rw [hrun1]
    exact lookupA_setA_self _ (sbc, hm.id) _
  have hex2 : get_existing_starboard_message
      (create_or_update_starboard_message s sbc msg rc).2 sbc msg =
      Except.ok (some (withEmbed hm (buildEmbed msg rc sb.starboard_emoji))) :=
    get_existing_of_live_link _ sbc msg g (mkLinkRecord msg g rc hm.id) _
      hg hdb2 hlink2 hlive3
  have hrun2 := upsert_of_live
    (create_or_update_starboard_message s sbc msg rc).2 sbc msg rc g sb
    (withEmbed hm (buildEmbed msg rc sb.starboard_emoji))
    (withEmbed hm (buildEmbed msg rc sb.starboard_emoji))
    hg hcfg2 hex2 hlive3
  have hpresent2 : lookupA
      (create_or_update_starboard_message s sbc msg rc).2.chanMessages
      (sbc, hm.id) ≠ none := by
    rw [show lookupA
      (create_or_update_starboard_message s sbc msg rc).2.chanMessages
      (sbc, hm.id) =
      lookupMsg (create_or_update_starboard_message s sbc msg rc).2 sbc hm.id
      from rfl, hlive3]
    exact Option.some_ne_none _
  refine ⟨hnext1, hcount1, ?_, ?_⟩
  · rw [hrun2]
    exact hnext1
  · rw [hrun2]
    show List.countP _
      (setA (create_or_update_starboard_message s sbc msg rc).2.chanMessages
        (sbc, hm.id) _) = _
    rw [countP_setA_present _ (sbc, hm.id) _ sbc hpresent2]
    exact hcount1

/-- Witness for C5: two upserts on `sDemote` (live link to highlight 200)
leave `nextId` and the starboard channel's message count unchanged. -/
theorem C5_upsert_idempotent_witness :
    (create_or_update_starboard_message sDemote 10 msgHot 2).2.nextId =
      sDemote.nextId ∧
    channelMessageCount
        (create_or_update_starboard_message sDemote 10 msgHot 2).2 10 =
      channelMessageCount sDemote 10 ∧
    (create_or_update_starboard_message
        (create_or_update_starboard_message sDemote 10 msgHot 2).2
        10 msgHot 2).2.nextId = sDemote.nextId ∧
    channelMessageCount
        (create_or_update_starboard_message
          (create_or_update_starboard_message sDemote 10 msgHot 2).2
          10 msgHot 2).2 10 =
      channelMessageCount sDemote 10 :=
  C5_upsert_idempotent sDemote 10 msgHot 2 1 ⟨10, "s", 3⟩ rowEx hlEx
    (by decide) (by decide) (by decide) (by decide) (by decide) (by decide)

/-- Like `sDemote`, but the highlight message 200 has been deleted out of
band: the link row is stale. -/
def sStale : BotState :=
  { configs := [(1, ⟨10, "s", 3⟩)], links := [((100, 1), rowEx)],
    channels := [(5, Channel.text 5 1), (10, Channel.text 10 1)],
    chanMessages := [((5, 100), msgHot)], nextId := 300,
    linkReadFails := false }

/-- C6: with a link row present but its highlight message no longer
fetchable (deleted out of band), the upsert does not fail: exactly as in
the Unlinked state it sends a fresh highlight message, which appears under
the fresh id `s.nextId`, and re-points the link row at it. -/
theorem C6_self_healing (s : BotState) (sbc : Nat) (msg : Message) (rc : Int)
    (g : Nat) (sb : StarboardConfig) (link : DBRecord)
    (hg : msg.guild_id = some g)
    (hcfg : lookupConfig s g = some sb)
    (hdb : s.linkReadFails = false)
    (hlink : lookupLink s msg.id g = some link)
    (hgone : lookupMsg s sbc link.starboard_message_id = none) :
    (create_or_update_starboard_message s sbc msg rc).1 = Except.ok () ∧
    lookupMsg (create_or_update_starboard_message s sbc msg rc).2 sbc
        s.nextId =
      some { id := s.nextId, channel_id := sbc, guild_id := none,
             author_id := 0, content := "", reactions := [],
             embed := some (buildEmbed msg rc sb.starboard_emoji) } ∧
    lookupLink (create_or_update_starboard_message s sbc msg rc).2 msg.id g =
      some (mkLinkRecord msg g rc s.nextId) := by
  have hex : get_existing_starboard_message s sbc msg = Except.ok none :=
    get_existing_of_stale_link s sbc msg g link hg hdb hlink hgone
  have hrun := upsert_of_none s sbc msg rc g sb hg hcfg hex
  rw [hrun]
  refine ⟨rfl, ?_, ?_⟩
  · exact lookupA_setA_self s.chanMessages (sbc, s.nextId) _
  · exact lookupA_setA_self s.links (msg.id, g) _

/-- Witness for C6: in `sStale` the next upsert sends highlight 300 and
re-points the link row at it. -/
theorem C6_self_healing_witness :
    (create_or_update_starboard_message sStale 10 msgHot 3).1 =
      Except.ok () ∧
    lookupMsg (create_or_update_starboard_message sStale 10 msgHot 3).2 10
        300 =
      some { id := 300, channel_id := 10, guild_id := none,
             author_id := 0, content := "", reactions := [],
             embed := some (buildEmbed msgHot 3 "s") } ∧
    lookupLink (create_or_update_starboard_message sStale 10 msgHot 3).2
        100 1 =
      some (mkLinkRecord msgHot 1 3 300) :=
  C6_self_healing sStale 10 msgHot 3 1 ⟨10, "s", 3⟩ rowEx (by decide)
    (by decide) (by decide) (by decide) (by decide)

/-- A remove event on message 100 whose reacting principal is a bot. -/
def pBot : Payload :=
  { guild_id := some 1, channel_id := 5, message_id := 100, emoji := "s",
    member := some ⟨42, true⟩, message_author_id := some 7 }

/-- Counterexample to C7 as stated: a remove event whose reacting principal
is a bot is NOT ignored — in `sDemote` it changes state, deleting highlight
message 200 (the remove handler never consults `payload.member`). -/
theorem C7_cex :
    pBot.member = some { id := 42, bot := true } ∧
    lookupMsg sDemote 10 200 = some hlEx ∧
    starboard_on_reaction_remove sDemote pBot ≠ (Except.ok (), sDemote) ∧
    lookupMsg (starboard_on_reaction_remove sDemote pBot).2 10 200 = none :=
  by decide

/-- C7 (amended): the no-config and emoji-mismatch guards ignore both add
and remove events with no state change, and the missing-member and bot
guards ignore add events; the remove handler performs no bot check (see the
counterexample), so a bot's removal is processed like any other. -/
theorem C7_guards_amended (s : BotState) (p : Payload) (g : Nat)
    (hg : p.guild_id = some g) :
    (lookupConfig s g = none →
      starboard_on_reaction_add s p = (Except.ok (), s) ∧
      starboard_on_reaction_remove s p = (Except.ok (), s)) ∧
    (∀ sb, lookupConfig s g = some sb → p.emoji ≠ sb.starboard_emoji →
      starboard_on_reaction_add s p = (Except.ok (), s) ∧
      starboard_on_reaction_remove s p = (Except.ok (), s)) ∧
    (∀ mem, p.member = some mem → mem.bot = true →
      starboard_on_reaction_add s p = (Except.ok (), s)) ∧
    (p.member = none → starboard_on_reaction_add s p = (Except.ok (), s)) := by
  refine ⟨?_, ?_, ?_, ?_⟩
  · intro hcfg
    constructor
    · simp only [starboard_on_reaction_add, hg, hcfg]
      cases p.member with
      | none => rfl
      | some mem => by_cases hb : mem.bot = true <;> simp [hb]
    · simp only [starboard_on_reaction_remove, hg, hcfg]
  · intro sb hsb hne
    constructor
    · simp only [starboard_on_reaction_add, hg, hsb, ne_eq, hne,
        not_false_eq_true, if_true]
      cases p.member with
      | none => rfl
      | some mem => by_cases hb : mem.bot = true <;> simp [hb]
    · simp only [starboard_on_reaction_remove, hg, hsb, ne_eq, hne,
        not_false_eq_true, if_true]
  · intro mem hpm hb
    simp only [starboard_on_reaction_add, hg, hpm, hb, if_true]
  · intro hpm
    simp only [starboard_on_reaction_add, hg, hpm]

/-- Witness for C7 (amended): in `sDemote` the bot add event `pBot` is
ignored with no state change. -/
theorem C7_guards_amended_witness :
    starboard_on_reaction_add sDemote pBot = (Except.ok (), sDemote) :=
  (C7_guards_amended sDemote pBot 1 (by decide)).2.2.1 ⟨42, true⟩
    (by decide) (by decide)

/-- Like `sDemote`, but the original message 100 is not fetchable (only the
highlight message 200 exists). -/
def sNoFetch : BotState :=
  { configs := [(1, ⟨10, "s", 3⟩)], links := [((100, 1), rowEx)],
    channels := [(5, Channel.text 5 1), (10, Channel.text 10 1)],
    chanMessages := [((10, 200), hlEx)], nextId := 300,
    linkReadFails := false }

/-- Counterexample to C8 as stated: in `sNoFetch` the original message 100
cannot be fetched and link row `rowEx` exists with its highlight message
200 live, yet the remove event leaves the state unchanged — the highlight
message is NOT deleted, so the fetch failure is not treated as a
qualifying count of 0. -/
theorem C8_cex :
    lookupMsg sNoFetch 5 100 = none ∧
    lookupLink sNoFetch 100 1 = some rowEx ∧
    lookupMsg sNoFetch 10 200 = some hlEx ∧
    starboard_on_reaction_remove sNoFetch pEx = (Except.ok (), sNoFetch) ∧
    lookupMsg (starboard_on_reaction_remove sNoFetch pEx).2 10 200 =
      some hlEx :=
  by decide

/-- C8 (amended): when fetching the original message fails, both handlers
catch the failure at the `try` boundary and drop the event with no state
change — the failure does not propagate, but neither is it treated as a
qualifying count of 0 (no demotion happens on the remove path; a count of 0
arises only when a fetched message has no roster for the trigger emoji). -/
theorem C8_fetch_failure_amended (s : BotState) (p : Payload) (g : Nat)
    (mem : Member) (sb : StarboardConfig) (cid cg : Nat)
    (hg : p.guild_id = some g)
    (hmem : p.member = some mem)
    (hbot : mem.bot = false)
    (hcfg : lookupConfig s g = some sb)
    (he : p.emoji = sb.starboard_emoji)
    (hch : lookupChannel s p.channel_id = some (Channel.text cid cg))
    (hgone : lookupMsg s p.channel_id p.message_id = none) :
    starboard_on_reaction_add s p = (Except.ok (), s) ∧
    starboard_on_reaction_remove s p = (Except.ok (), s) := by
  constructor
  · simp only [starboard_on_reaction_add, hg, hmem, hbot, hcfg, he, hch,
      fetchMessage, hgone, ne_eq, not_true_eq_false, if_false,
      Bool.false_eq_true]
  · simp only [starboard_on_reaction_remove, hg, hcfg, he, hch,
      fetchMessage, hgone, ne_eq, not_true_eq_false, if_false]

/-- Witness for C8 (amended): in `sNoFetch` both handlers drop the event
with no state change. -/
theorem C8_fetch_failure_amended_witness :
    starboard_on_reaction_add sNoFetch pEx = (Except.ok (), sNoFetch) ∧
    starboard_on_reaction_remove sNoFetch pEx = (Except.ok (), sNoFetch) :=
  C8_fetch_failure_amended sNoFetch pEx 1 ⟨8, false⟩ ⟨10, "s", 3⟩ 5 1
    (by decide) (by decide) (by decide) (by decide) (by decide) (by decide)
    (by decide)

/-- Configured guild 1, but channel 5 does not resolve to any channel. -/
def sNoChan : BotState :=
  { configs := [(1, ⟨10, "s", 2⟩)], links := [], channels := [],
    chanMessages := [], nextId := 0, linkReadFails := false }

/-- Counterexample to C9 as stated: with guild, config and emoji all in
order but channel 5 not resolving to a text channel, the add handler ends
with an escaped exception (the `assert isinstance` sits outside the `try`
block) instead of short-circuiting silently. -/
theorem C9_cex :
    (starboard_on_reaction_add sNoChan pEx).1 = Except.error () :=
  by decide

/-- C9 (amended): an event missing its guild id short-circuits every
handler silently, but the channel-resolution guard of the add and remove
handlers is an assertion OUTSIDE their `try` blocks and raises out of the
handler when the channel does not resolve; only the clear handler, whose
assertion lies inside its `try`, swallows that case silently. -/
theorem C9_error_guards_amended (s : BotState) (p : Payload) :
    (p.guild_id = none →
      starboard_on_reaction_add s p = (Except.ok (), s) ∧
      starboard_on_reaction_remove s p = (Except.ok (), s) ∧
      starboard_on_reaction_clear s p = (Except.ok (), s)) ∧
    (∀ g mem sb, p.guild_id = some g → p.member = some mem →
      mem.bot = false → lookupConfig s g = some sb →
      p.emoji = sb.starboard_emoji →
      lookupChannel s p.channel_id = none →
      starboard_on_reaction_add s p = (Except.error (), s) ∧
      starboard_on_reaction_remove s p = (Except.error (), s)) ∧
    (∀ g, p.guild_id = some g → lookupChannel s p.channel_id = none →
      starboard_on_reaction_clear s p = (Except.ok (), s)) := by
  refine ⟨?_, ?_, ?_⟩
  · intro hg
    refine ⟨?_, ?_, ?_⟩
    · simp only [starboard_on_reaction_add, hg]
    · simp only [starboard_on_reaction_remove, hg]
    · simp only [starboard_on_reaction_clear, hg]
  · intro g mem sb hg hmem hbot hcfg he hch
    constructor
    · simp only [starboard_on_reaction_add, hg, hmem, hbot, hcfg, he, hch,
        ne_eq, not_true_eq_false, if_false, Bool.false_eq_true]
    · simp only [starboard_on_reaction_remove, hg, hcfg, he, hch, ne_eq,
        not_true_eq_false, if_false]
  · intro g hg hch
    simp only [starboard_on_reaction_clear, hg, hch]

/-- Witness for C9 (amended): in `sNoChan` the add and remove handlers end
with an escaped exception while the clear handler returns silently. -/
theorem C9_error_guards_amended_witness :
    starboard_on_reaction_add sNoChan pEx = (Except.error (), sNoChan) ∧
    starboard_on_reaction_remove sNoChan pEx = (Except.error (), sNoChan) :=
  (C9_error_guards_amended sNoChan pEx).2.1 1 ⟨8, false⟩ ⟨10, "s", 2⟩
    (by decide) (by decide) (by decide) (by decide) (by decide) (by decide)

/-- Like `sDemote` but with the link-store read failing. -/
def sDbFail : BotState :=
  { configs := [(1, ⟨10, "s", 2⟩)], links := [((100, 1), rowEx)],
    channels := [(5, Channel.text 5 1), (10, Channel.text 10 1)],
    chanMessages := [((5, 100), msgHot), ((10, 200), hlEx)], nextId := 300,
    linkReadFails := true }

/-- C10: whenever the original message carries a guild id,
`get_existing_starboard_message` never raises to its caller — any
link-store or fetch exception is caught and `None` returned; in particular
a failing link-store read yields `.ok none`, and an upsert under that
failure completes and sends a fresh highlight message (present at the fresh
id `s.nextId`) instead of aborting. -/
theorem C10_get_existing_total (s : BotState) (sbc : Nat) (msg : Message)
    (rc : Int) (g : Nat) (hg : msg.guild_id = some g) :
    (∃ v, get_existing_starboard_message s sbc msg = Except.ok v) ∧
    (s.linkReadFails = true →
      get_existing_starboard_message s sbc msg = Except.ok none) ∧
    (∀ sb, s.linkReadFails = true → lookupConfig s g = some sb →
      (create_or_update_starboard_message s sbc msg rc).1 = Except.ok () ∧
      lookupMsg (create_or_update_starboard_message s sbc msg rc).2 sbc
        s.nextId ≠ none) := by
  refine ⟨?_, ?_, ?_⟩
  · cases hdb : s.linkReadFails with
    | true => exact ⟨none, get_existing_of_db_fail s sbc msg g hg hdb⟩
    | false =>
      cases hlink : lookupLink s msg.id g with
      | none => exact ⟨none, get_existing_of_no_link s sbc msg g hg hdb hlink⟩
      | some link =>
        cases hlive : lookupMsg s sbc link.starboard_message_id with
        | none =>
          exact ⟨none,
            get_existing_of_stale_link s sbc msg g link hg hdb hlink hlive⟩
        | some hm =>
          exact ⟨some hm,
            get_existing_of_live_link s sbc msg g link hm hg hdb hlink hlive⟩
  · intro hdb
    exact get_existing_of_db_fail s sbc msg g hg hdb
  · intro sb hdb hcfg
    have hex : get_existing_starboard_message s sbc msg = Except.ok none :=
      get_existing_of_db_fail s sbc msg g hg hdb
    have hrun := upsert_of_none s sbc msg rc g sb hg hcfg hex
    rw [hrun]
    refine ⟨rfl, ?_⟩
    show lookupA (setA s.chanMessages (sbc, s.nextId) _) (sbc, s.nextId) ≠
      none
    rw [lookupA_setA_self]
    exact Option.some_ne_none _

/-- Witness for C10: in `sDbFail` (link-store read failing) the lookup
returns `.ok none` and the upsert still sends highlight 300. -/
theorem C10_get_existing_total_witness :
    (create_or_update_starboard_message sDbFail 10 msgHot 2).1 =
      Except.ok () ∧
    lookupMsg (create_or_update_starboard_message sDbFail 10 msgHot 2).2 10
      300 ≠ none :=
  (C10_get_existing_total sDbFail 10 msgHot 2 1 (by decide)).2.2
    ⟨10, "s", 2⟩ (by decide) (by decide)

end StarboardSpec
